import Mathlib

/-!
Verification of the model-weight provisioning and validation subsystem of
the `handCBCT` Slicer module (`handCBCT/handCBCTLib/Logic.py`).

The Python logic is shallowly embedded: the filesystem is the set of
existing paths, the network environment (release listing, HTTP status,
archive integrity) is an explicit input, and Python exceptions are an
explicit error type threaded through `Except`.
-/

set_option autoImplicit false

namespace HandCBCT

/-- Filesystem paths, modelled as plain strings. -/
abbrev Path := String

/-- Constant `handCBCTLogic.MODEL_CHECKPOINT` (Logic.py line 28). -/
def MODEL_CHECKPOINT : String := "checkpoint_final.pth"

/-- Constant `handCBCTLogic.MODEL_WEIGHT_NAME` (Logic.py line 29). -/
def MODEL_WEIGHT_NAME : String := "Dataset001_hand"

/-- Python exceptions that the embedded code can raise. -/
inductive PyErr where
  /-- Python `TypeError` (wrong call arity or unexpected keyword argument). -/
  | typeError
  /-- Python `IndexError` (`assets[0]` on an empty list, Logic.py line 166). -/
  | indexError
  /-- Python `FileNotFoundError` (`shutil.rmtree` on a missing path, Logic.py line 174). -/
  | fileNotFoundError
  /-- Python `requests.HTTPError` from `raise_for_status`, carrying status and reason. -/
  | httpError (status : Nat) (reason : String)
  /-- Python `zipfile.BadZipFile` (corrupt archive). -/
  | badZipError
  /-- Python `ValueError` (invalid input or output selection, Logic.py line 66). -/
  | valueError
deriving DecidableEq, Repr

/-- Embeds `handCBCTLogic.getCachePath` (Logic.py lines 223-231):
`Path(slicer.app.cachePath) / "handCBCT"`, as a function of the host
application cache root. -/
def getCachePath (hostCacheRoot : Path) : Path :=
  hostCacheRoot ++ "/handCBCT"

/-- The body of `handCBCTLogic.getModelPath` (Logic.py lines 212-221):
`self.getCachePath() / "Model"`. -/
def getModelPath (hostCacheRoot : Path) : Path :=
  getCachePath hostCacheRoot ++ "/Model"

/-- Number of positional parameters declared by `getModelPath` in the source:
it is written `def getModelPath(self) -> Path` (Logic.py line 213). -/
def getModelPathDeclaredParams : Nat := 1

/-- Number of arguments a call `self.getModelPath()` supplies: the method is
decorated `@staticmethod` (Logic.py line 212), so the descriptor does not bind
the instance and the call passes zero arguments. -/
def getModelPathCallArgs : Nat := 0

/-- Python call semantics: a call whose argument count differs from the
declared parameter count raises `TypeError` before the body runs. -/
def pyCallArity {α : Type} (declared given : Nat) (body : α) : Except PyErr α :=
  if given = declared then .ok body else .error .typeError

/-- The instance call `self.getModelPath()` as it appears at Logic.py
lines 132, 168 and 257, with the `@staticmethod` descriptor semantics. -/
def getModelPathInstanceCall (hostCacheRoot : Path) : Except PyErr Path :=
  pyCallArity getModelPathDeclaredParams getModelPathCallArgs (getModelPath hostCacheRoot)

/-- The filesystem: the set of existing paths. -/
abbrev FS := List Path

/-- Embeds `Path.exists()`: membership of a path in the filesystem. -/
def FS.existsPath : FS → Path → Bool
  | [], _ => false
  | q :: fs, p => (q == p) || FS.existsPath fs p

/-- Whether `q` lies inside the directory tree rooted at `p`
(it is `p` itself or a descendant of `p`). -/
def underDir (q p : Path) : Bool :=
  (q == p) || q.startsWith (p ++ "/")

/-- Embeds `shutil.rmtree(p)`: removes the directory tree rooted at `p`; raises
`FileNotFoundError` when `p` does not exist (no `ignore_errors` is passed at
Logic.py line 174). -/
def rmtree (fs : FS) (p : Path) : Except PyErr FS :=
  if FS.existsPath fs p then
    .ok (fs.filter (fun q => !underDir q p))
  else
    .error .fileNotFoundError

/-- The weight-set directory path `getModelPath() / MODEL_WEIGHT_NAME` that
line 168 would compute if its `self.getModelPath()` call did not raise. -/
def weightPathOf (root : Path) : Path :=
  getModelPath root ++ "/" ++ MODEL_WEIGHT_NAME

/-- A GitHub release asset: a name and a browser download URL. -/
structure Asset where
  name : String
  browser_download_url : String
deriving DecidableEq, Repr

/-- The network environment an invocation of `downloadWeights` runs against:
the published releases with their assets, the HTTP status and reason of the
asset GET, and whether the downloaded archive is a well-formed zip. -/
structure Network where
  releases : List (List Asset)
  status : Nat
  reason : String
  zipOk : Bool
deriving DecidableEq, Repr

/-- Outbound network operations, recorded in order. -/
inductive NetCall where
  /-- The GitHub release/asset enumeration (Logic.py lines 162-164). -/
  | releaseQuery
  /-- The streaming `session.get(url)` (Logic.py line 181). -/
  | httpGet (url : String)
deriving DecidableEq, Repr

/-- The list comprehension at Logic.py line 164: all assets over all
releases, in enumeration order, whose name equals
`MODEL_WEIGHT_NAME + ".zip"`. -/
def matchingAssets (releases : List (List Asset)) : List Asset :=
  releases.flatten.filter (fun a => a.name == MODEL_WEIGHT_NAME ++ ".zip")

instance exceptDecEq {ε α : Type} [DecidableEq ε] [DecidableEq α] :
    DecidableEq (Except ε α) := fun
  | .ok a, .ok b =>
    if h : a = b then isTrue (by rw [h])
    else isFalse (by intro he; cases he; exact h rfl)
  | .ok _, .error _ => isFalse (by intro h; cases h)
  | .error _, .ok _ => isFalse (by intro h; cases h)
  | .error e, .error f =>
    if h : e = f then isTrue (by rw [h])
    else isFalse (by intro he; cases he; exact h rfl)

/-- Result of one `downloadWeights` call: the returned value or the raised
exception, the filesystem afterwards, the network calls performed, and the
download URL bound at Logic.py line 166 (`assets[0].browser_download_url`),
when that line was reached and succeeded. -/
structure DLOutcome where
  result : Except PyErr Bool
  fs : FS
  calls : List NetCall
  selectedUrl : Option String
deriving DecidableEq, Repr

/-- Embeds `handCBCTLogic.downloadWeights` (Logic.py lines 149-198) in source
order: the release query and `assets[0]` at lines 162-166, the
`self.getModelPath()` instance call at line 168 (which, per
`getModelPathInstanceCall`, raises `TypeError` because of the
`@staticmethod`-with-`self` declaration), then — only if that call returned —
the existence test at line 170, the unconditional `shutil.rmtree` under
`downloadAgain` at line 174, the streaming GET with `raise_for_status` at
lines 181-183, the chunked write of the zip, and `ZipFile.extractall` into
the weight directory. -/
def downloadWeights (root : Path) (net : Network) (fs : FS)
    (downloadAgain : Bool) : DLOutcome :=
  match matchingAssets net.releases with
  | [] =>
    { result := .error .indexError, fs := fs, calls := [.releaseQuery],
      selectedUrl := none }
  | a :: _ =>
    match getModelPathInstanceCall root with
    | .error e =>
      { result := .error e, fs := fs, calls := [.releaseQuery],
        selectedUrl := some a.browser_download_url }
    | .ok modelPath =>
      let weightPath := modelPath ++ "/" ++ MODEL_WEIGHT_NAME
      if !FS.existsPath fs weightPath || downloadAgain then
        match (if downloadAgain then rmtree fs weightPath else .ok fs) with
        | .error e =>
          { result := .error e, fs := fs, calls := [.releaseQuery],
            selectedUrl := some a.browser_download_url }
        | .ok fs1 =>
          if 400 ≤ net.status ∧ net.status < 600 then
            { result := .error (.httpError net.status net.reason), fs := fs1,
              calls := [.releaseQuery, .httpGet a.browser_download_url],
              selectedUrl := some a.browser_download_url }
          else
            if net.zipOk then
              { result := .ok true,
                fs := weightPath :: (weightPath ++ ".zip") :: fs1,
                calls := [.releaseQuery, .httpGet a.browser_download_url],
                selectedUrl := some a.browser_download_url }
            else
              { result := .error .badZipError,
                fs := (weightPath ++ ".zip") :: fs1,
                calls := [.releaseQuery, .httpGet a.browser_download_url],
                selectedUrl := some a.browser_download_url }
      else
        { result := .ok false, fs := fs, calls := [.releaseQuery],
          selectedUrl := some a.browser_download_url }

/-- Embeds the `weightsExist` property (Logic.py lines 248-257):
`(self.getModelPath() / MODEL_WEIGHT_NAME).exists()`. The instance call to
the `@staticmethod` raises `TypeError`, so the property never reaches the
existence test. -/
def weightsExist (root : Path) (fs : FS) : Except PyErr Bool :=
  match getModelPathInstanceCall root with
  | .error e => .error e
  | .ok modelPath => .ok (FS.existsPath fs (modelPath ++ "/" ++ MODEL_WEIGHT_NAME))

/-- Keyword parameters accepted by `pathlib.Path.mkdir`:
`mkdir(mode=0o777, parents=False, exist_ok=False)`. -/
def mkdirKeywords : List String := ["mode", "parents", "exist_ok"]

/-- The keyword arguments passed at Logic.py line 133:
`modelPath.mkdir(parents = True, exists_ok = True)`. -/
def loadWeightsMkdirKwargs : List String := ["parents", "exists_ok"]

/-- Python keyword-call semantics for `mkdir`: an unexpected keyword argument
raises `TypeError` before any directory is created; otherwise the directory
(and, with `parents=True`, its ancestors) is created, silently succeeding when
it already exists. -/
def mkdirCall (kwargs : List String) (fs : FS) (p : Path) : Except PyErr FS :=
  if kwargs.all (fun k => mkdirKeywords.contains k) then
    .ok (if FS.existsPath fs p then fs else p :: fs)
  else
    .error .typeError

/-- The model-directory creation step performed inside `loadWeights`
(Logic.py lines 132-133): `modelPath.mkdir(parents = True, exists_ok = True)`
applied to `getModelPath()`, with the keyword arguments the source passes. -/
def ensureModelDirectory (root : Path) (fs : FS) : Except PyErr FS :=
  mkdirCall loadWeightsMkdirKwargs fs (getModelPath root)

/-- Embeds `handCBCTLogic.loadWeights` (Logic.py lines 120-146) up to its
filesystem effect: the `self.getModelPath()` instance call at line 132, which
raises `TypeError` (see `getModelPathInstanceCall`); then — only if that call
returned a path — the `mkdir` call at line 133 with its misspelled
`exists_ok` keyword, which raises `TypeError` as well. The parameter
assignments and dialogs at lines 136-146 run only if both succeed. -/
def loadWeights (root : Path) (fs : FS) : Except PyErr FS :=
  match getModelPathInstanceCall root with
  | .error e => .error e
  | .ok modelPath =>
    match mkdirCall loadWeightsMkdirKwargs fs modelPath with
    | .error e => .error e
    | .ok fs1 => .ok fs1

/-- The observable steps of `setup` and `process`
(Logic.py lines 49-77 and 97-118), in execution order. -/
inductive Step where
  /-- Step `self.installDependencies()` (Logic.py line 102). -/
  | installDependencies
  /-- Step `self.segmentationLogic = SegmentationLogic()` (Logic.py line 107). -/
  | constructEngine
  /-- signal wiring (Logic.py lines 110-112). -/
  | connectSignals
  /-- Step `self.modelParameters = Parameter()` (Logic.py line 116). -/
  | buildParameters
  /-- Step `self.loadWeights()` (Logic.py line 117). -/
  | loadWeightsStep
  /-- Step `raise ValueError(...)` (Logic.py line 66). -/
  | raiseValueError
  /-- Step `self.segmentationLogic.startSegmentation(inputVolume)` (Logic.py line 73). -/
  | startSegmentation
  /-- Step `self.segmentationLogic.waitForSegmentationFinished()` (Logic.py line 74). -/
  | waitForSegmentationFinished
deriving DecidableEq, BEq, Repr

/-- The steps a `setup` call reaches (Logic.py lines 97-118): dependency
installation when not yet installed, engine construction, signal wiring,
parameter construction, then the `loadWeights` call — inside which the run
aborts with `TypeError` at line 132, so `is_setup = True` at line 118 is
never executed. -/
def setupTrace (dependenciesInstalled : Bool) : List Step :=
  (if dependenciesInstalled then [] else [Step.installDependencies]) ++
    [Step.constructEngine, Step.connectSignals, Step.buildParameters,
      Step.loadWeightsStep]

/-- The steps a `process` call reaches (Logic.py lines 49-77): when
`is_setup` is false the `setup` sequence runs first and aborts inside
`loadWeights`, so the validation at line 65 is never reached; when `is_setup`
is true the validation raises `ValueError` on a null selection, else the
segmentation calls run. -/
def processTrace (is_setup dependenciesInstalled : Bool)
    (inputNull outputNull : Bool) : List Step :=
  if is_setup then
    (if inputNull || outputNull then [Step.raiseValueError]
     else [Step.startSegmentation, Step.waitForSegmentationFinished])
  else
    setupTrace dependenciesInstalled

/-- The value returned or the exception raised by a `process` call
(Logic.py lines 49-77), threading the `loadWeights` outcome through the
un-set-up branch. -/
def processResult (root : Path) (fs : FS) (is_setup : Bool)
    (inputNull outputNull : Bool) : Except PyErr Unit :=
  if is_setup then
    (if inputNull || outputNull then .error .valueError else .ok ())
  else
    match loadWeights root fs with
    | .error e => .error e
    | .ok _ =>
      (if inputNull || outputNull then .error .valueError else .ok ())

/-- The setup-related flags of `handCBCTLogic` (Logic.py lines 40-41). -/
structure LogicState where
  dependenciesInstalled : Bool
  is_setup : Bool
deriving DecidableEq, Repr

/-- Flag state after a `setup` attempt: `installDependencies` sets
`dependenciesInstalled = True` at Logic.py line 95, but `is_setup = True` at
line 118 is never reached because `loadWeights` raises `TypeError` at
line 132 first. -/
def setupPost (_s : LogicState) : LogicState :=
  { dependenciesInstalled := true, is_setup := false }

/-- Flag state after `process` (Logic.py lines 62-63): `setup` runs only
when `is_setup` is false. -/
def processPost (s : LogicState) : LogicState :=
  if s.is_setup then s else setupPost s

/-- Embeds `SlicerNNUNetLib.Parameter` as used here (Logic.py lines 116, 136-137):
the model path, the checkpoint name, and the outcome its `isValid()` call
would report for the current on-disk state. -/
structure ModelParameters where
  modelPath : Path
  checkPointName : String
  isValidFlag : Bool
  isValidMessage : String
deriving DecidableEq, Repr

/-- The external segmentation engine as seen from this module: the parameter
object currently bound via `setParameter` (Logic.py line 209). -/
structure Engine where
  boundParams : Option ModelParameters
deriving DecidableEq, Repr

/-- The `hasValidParams` property (Logic.py lines 233-246). Returns the
boolean result together with whether the external `isValid()` call was
invoked: when `modelParameters` is falsy the `else` branch returns `False`
without calling `isValid()`. -/
def hasValidParams (modelParameters : Option ModelParameters) : Bool × Bool :=
  match modelParameters with
  | some mp => (mp.isValidFlag, true)
  | none => (false, false)

/-- Embeds `handCBCTLogic._reloadParameters` (Logic.py lines 202-209):
`setParameter` runs only when both `segmentationLogic` and
`modelParameters` are non-null; otherwise the binding is left unchanged. -/
def reloadParameters (segmentationLogic : Option Engine)
    (modelParameters : Option ModelParameters) : Option Engine :=
  match segmentationLogic, modelParameters with
  | some eng, some mp => some { eng with boundParams := some mp }
  | _, _ => segmentationLogic

/-! Concrete test fixtures. -/

/-- A concrete host cache root. -/
def root0 : Path := "/cache"

/-- A release asset whose name matches `MODEL_WEIGHT_NAME + ".zip"`. -/
def asset0 : Asset :=
  { name := "Dataset001_hand.zip",
    browser_download_url := "https://example.org/Dataset001_hand.zip" }

/-- A second matching asset, behind `asset0` in enumeration order. -/
def asset1 : Asset :=
  { name := "Dataset001_hand.zip",
    browser_download_url := "https://example.org/older.zip" }

/-- A non-matching release asset. -/
def assetOther : Asset :=
  { name := "other.zip", browser_download_url := "https://example.org/other.zip" }

/-- Network with one matching asset, HTTP 200, a well-formed archive. -/
def netOk : Network :=
  { releases := [[asset0]], status := 200, reason := "OK", zipOk := true }

/-- Network with two matching assets across two releases. -/
def netTwo : Network :=
  { releases := [[asset0], [asset1]], status := 200, reason := "OK", zipOk := true }

/-- Network with one matching asset but an HTTP 404 on the GET. -/
def net404 : Network :=
  { releases := [[asset0]], status := 404, reason := "Not Found", zipOk := true }

/-- Network whose releases hold no asset named `Dataset001_hand.zip`. -/
def netNoMatch : Network :=
  { releases := [[assetOther]], status := 200, reason := "OK", zipOk := true }

/-- Filesystem in which the weight-set directory under `root0` exists. -/
def fsPresent : FS := ["/cache/handCBCT/Model/Dataset001_hand"]

/-- Empty filesystem. -/
def fsEmpty : FS := []

end HandCBCT

namespace HandCBCT

/-! Basic characterizations of `downloadWeights`, by case. -/

/-- No asset matches: `assets[0]` raises `IndexError` right after the release
query, before any filesystem access and before line 168. -/
theorem downloadWeights_noAsset (root : Path) (net : Network) (fs : FS)
    (da : Bool) (h : matchingAssets net.releases = []) :
    downloadWeights root net fs da =
      { result := .error .indexError, fs := fs, calls := [.releaseQuery],
        selectedUrl := none } := by
  unfold downloadWeights
  rw [h]

/-- An asset matches: line 166 binds the first matching asset's URL, then the
`self.getModelPath()` call at line 168 raises `TypeError` — regardless of the
filesystem, the `downloadAgain` flag, the HTTP status or the archive, the
call fails with the filesystem unchanged and no HTTP GET issued. -/
theorem downloadWeights_matched (root : Path) (net : Network) (fs : FS)
    (da : Bool) (a : Asset) (rest : List Asset)
    (hm : matchingAssets net.releases = a :: rest) :
    downloadWeights root net fs da =
      { result := .error .typeError, fs := fs, calls := [.releaseQuery],
        selectedUrl := some a.browser_download_url } := by
  unfold downloadWeights
  rw [hm]
  rfl

/-- Claim C2: the model-directory creation step inside `loadWeights` is
claimed idempotent and error-free, but the source passes the misspelled
keyword `exists_ok` (pathlib expects `exist_ok`), so the `mkdir` call raises
`TypeError` on every filesystem state, whether or not the directory exists. -/
theorem ensureModelDirectory_raises_typeError (root : Path) (fs : FS) :
    ensureModelDirectory root fs = .error .typeError := rfl

/-- Claim C8: `getCachePath` returns the host cache root joined with
`handCBCT` and the body of `getModelPath` returns `getCachePath` joined with
`Model`; but `getModelPath` is declared `@staticmethod` while taking `self`,
so the instance call `self.getModelPath()` used throughout the module raises
`TypeError` instead of returning a path — the claimed absence of failure
modes does not hold. -/
theorem getModelPath_instance_call_typeError (root : Path) :
    getCachePath root = root ++ "/handCBCT" ∧
    getModelPathInstanceCall root = .error .typeError :=
  ⟨rfl, rfl⟩

/-- Claim C10: when `modelParameters` is `None`, `hasValidParams` returns
`False` without invoking the engine's `isValid` call, and `_reloadParameters`
leaves the engine binding unchanged unless both the engine and the parameters
are non-null. -/
theorem hasValidParams_none_reload_frame (e : Option Engine)
    (mp : Option ModelParameters) :
    hasValidParams none = (false, false) ∧
    reloadParameters none mp = none ∧
    reloadParameters e none = e := by
  refine ⟨rfl, ?_, ?_⟩
  · cases mp <;> rfl
  · cases e <;> rfl

/-- Claim C9: once `is_setup` is true, a re-entrant `process` call leaves the
setup flags unchanged and performs none of the setup steps — no dependency
installation, no engine construction, no parameter building, no weight
loading. -/
theorem process_reentrant_noop (di inputNull outputNull : Bool) :
    processPost { dependenciesInstalled := di, is_setup := true } =
      { dependenciesInstalled := di, is_setup := true } ∧
    (processTrace true di inputNull outputNull).contains Step.installDependencies = false ∧
    (processTrace true di inputNull outputNull).contains Step.constructEngine = false ∧
    (processTrace true di inputNull outputNull).contains Step.buildParameters = false ∧
    (processTrace true di inputNull outputNull).contains Step.loadWeightsStep = false := by
  cases di <;> cases inputNull <;> cases outputNull <;> decide

/-- Claim C4 counterexample: `process()` on a logic that is not yet set up,
with a null output selection, does not fail with the validation error:
`setup` runs first (Logic.py lines 62-63), constructs the engine at line 107,
and aborts with `TypeError` inside `loadWeights` at line 132, so the
`ValueError` at line 66 is never raised — engine work both precedes and
replaces the claimed immediate rejection. -/
theorem process_fresh_null_output_typeError :
    processResult root0 fsEmpty false false true = .error .typeError ∧
    (processTrace false false false true).contains Step.constructEngine = true ∧
    (processTrace false false false true).contains Step.raiseValueError = false := by
  decide

/-- Claim C4, amended: on a logic that is already set up, a null input or
output selection makes `process` raise `ValueError` immediately (the trace is
exactly the raise); on a logic that is not set up, `process` first runs the
setup sequence — dependency installation, engine construction, signal wiring,
parameter building — and aborts with `TypeError` inside `loadWeights`
(the `getModelPath` staticmethod slip), so the validation and the
segmentation calls are never reached. -/
theorem process_validation_behavior (root : Path) (fs : FS)
    (di inputNull outputNull : Bool) :
    ((inputNull || outputNull) = true →
      processResult root fs true inputNull outputNull = .error .valueError ∧
      processTrace true di inputNull outputNull = [Step.raiseValueError]) ∧
    (processResult root fs false inputNull outputNull = .error .typeError ∧
      processTrace false di inputNull outputNull = setupTrace di ∧
      (processTrace false di inputNull outputNull).contains
        Step.raiseValueError = false ∧
      (processTrace false di inputNull outputNull).contains
        Step.startSegmentation = false) := by
  refine ⟨fun h => ⟨by simp [processResult, h], by simp [processTrace, h]⟩,
    rfl, rfl, ?_, ?_⟩
  · cases di <;> rfl
  · cases di <;> rfl

/-- Witness for `process_validation_behavior` at concrete inputs: a null
output selection, on a set-up logic and on a fresh one. -/
theorem process_validation_behavior_witness :
    processResult root0 fsEmpty true false true = .error .valueError ∧
    processTrace true false false true = [Step.raiseValueError] ∧
    processResult root0 fsEmpty false false true = .error .typeError ∧
    processTrace false false false true = setupTrace false ∧
    (processTrace false false false true).contains Step.raiseValueError = false ∧
    (processTrace false false false true).contains Step.startSegmentation = false := by
  have h := process_validation_behavior root0 fsEmpty false false true
  exact ⟨(h.1 rfl).1, (h.1 rfl).2, h.2.1, h.2.2.1, h.2.2.2.1, h.2.2.2.2⟩

/-- Claim C1 counterexample: with the weight-set directory already present
and `forceRedownload=false`, the call does not return `false` with zero
network calls — it performs the release-repository query (Logic.py
lines 162-166, before the existence test) and then raises `TypeError` at
line 168. -/
theorem downloadWeights_present_counterexample :
    downloadWeights root0 netOk fsPresent false =
      { result := .error .typeError, fs := fsPresent,
        calls := [.releaseQuery],
        selectedUrl := some "https://example.org/Dataset001_hand.zip" } := by
  decide

/-- Claim C1, amended: with the weight-set directory present and
`forceRedownload=false`, `downloadWeights` leaves the filesystem unchanged
and issues no HTTP GET, but it performs one release-repository query and then
fails — `IndexError` when no release asset matches, otherwise `TypeError`
from the `getModelPath` staticmethod slip at Logic.py line 168, before the
existence check; it never returns `false`. -/
theorem downloadWeights_present_no_download (root : Path) (net : Network)
    (fs : FS) (hex : FS.existsPath fs (weightPathOf root) = true) :
    (downloadWeights root net fs false).fs = fs ∧
    (downloadWeights root net fs false).calls = [NetCall.releaseQuery] ∧
    (matchingAssets net.releases = [] →
      (downloadWeights root net fs false).result = .error .indexError) ∧
    (∀ (a : Asset) (rest : List Asset), matchingAssets net.releases = a :: rest →
      (downloadWeights root net fs false).result = .error .typeError) := by
  cases hm : matchingAssets net.releases with
  | nil =>
    rw [downloadWeights_noAsset root net fs false hm]
    simp [hm]
  | cons a rest =>
    rw [downloadWeights_matched root net fs false a rest hm]
    simp [hm]

/-- Witness for `downloadWeights_present_no_download` at a concrete input
with the weight directory present and one matching asset. -/
theorem downloadWeights_present_no_download_witness :
    (downloadWeights root0 netOk fsPresent false).fs = fsPresent ∧
    (downloadWeights root0 netOk fsPresent false).calls = [NetCall.releaseQuery] ∧
    (downloadWeights root0 netOk fsPresent false).result = .error .typeError := by
  have h := downloadWeights_present_no_download root0 netOk fsPresent (by decide)
  exact ⟨h.1, h.2.1, h.2.2.2 asset0 [] (by decide)⟩

/-- Claim C3: `forceRedownload=true` is claimed to remove an existing
weight-set directory and to proceed without error when none exists; in the
source neither happens — whether the directory exists (first conjunct) or not
(second), the call raises `TypeError` at Logic.py line 168, before the
`shutil.rmtree` at line 174 and before any GET, leaving the filesystem
unchanged. -/
theorem downloadWeights_force_raises_typeError :
    downloadWeights root0 netOk fsPresent true =
      { result := .error .typeError, fs := fsPresent,
        calls := [.releaseQuery],
        selectedUrl := some "https://example.org/Dataset001_hand.zip" } ∧
    downloadWeights root0 netOk fsEmpty true =
      { result := .error .typeError, fs := fsEmpty,
        calls := [.releaseQuery],
        selectedUrl := some "https://example.org/Dataset001_hand.zip" } := by
  decide

/-- Claim C5: when no release asset is named `Dataset001_hand.zip`, the call
fails right after the release query (`assets[0]` at Logic.py line 166 raises
`IndexError`, the spec's ResourceNotFoundError) with the filesystem
untouched; when assets do match, line 166 deterministically binds the first
matching asset in release/asset enumeration order as the download URL —
that selection really executes, before the line-168 `TypeError`. -/
theorem downloadWeights_asset_selection (root : Path) (net : Network)
    (fs : FS) (da : Bool) :
    (matchingAssets net.releases = [] →
      downloadWeights root net fs da =
        { result := .error .indexError, fs := fs, calls := [.releaseQuery],
          selectedUrl := none }) ∧
    (∀ (a : Asset) (rest : List Asset), matchingAssets net.releases = a :: rest →
      (downloadWeights root net fs da).selectedUrl =
        some a.browser_download_url) := by
  constructor
  · intro h
    exact downloadWeights_noAsset root net fs da h
  · intro a rest hm
    rw [downloadWeights_matched root net fs da a rest hm]

/-- Witness for `downloadWeights_asset_selection`: the no-match error case,
and the two-matching-assets case where the first asset's URL is selected. -/
theorem downloadWeights_asset_selection_witness :
    downloadWeights root0 netNoMatch fsEmpty false =
      { result := .error .indexError, fs := fsEmpty, calls := [.releaseQuery],
        selectedUrl := none } ∧
    (downloadWeights root0 netTwo fsEmpty false).selectedUrl =
      some "https://example.org/Dataset001_hand.zip" := by
  have h1 := downloadWeights_asset_selection root0 netNoMatch fsEmpty false
  have h2 := downloadWeights_asset_selection root0 netTwo fsEmpty false
  exact ⟨h1.1 (by decide), h2.2 asset0 [asset1] (by decide)⟩

/-- Claim C6: the claimed NetworkError on a non-success HTTP status can never
be observed — with the weight set absent, a matching asset, and a server that
would answer 404, the call raises `TypeError` at Logic.py line 168 before the
GET at line 181 is issued (the recorded calls contain no `httpGet`), so
`raise_for_status` at line 183 is unreachable; no zip is written, but only
because the download never starts. -/
theorem downloadWeights_get_unreachable :
    downloadWeights root0 net404 fsEmpty false =
      { result := .error .typeError, fs := fsEmpty,
        calls := [.releaseQuery],
        selectedUrl := some "https://example.org/Dataset001_hand.zip" } := by
  decide

/-- Claim C7: the claimed round trip can never occur — with the weight set
absent, a matching asset, HTTP 200 and a valid archive, `downloadWeights`
raises `TypeError` at Logic.py line 168 before the GET/write/extract and
never returns `true`; and `weightsExist` itself raises `TypeError` at
line 257 instead of returning a boolean, on any filesystem. -/
theorem downloadWeights_roundTrip_impossible :
    downloadWeights root0 netOk fsEmpty false =
      { result := .error .typeError, fs := fsEmpty,
        calls := [.releaseQuery],
        selectedUrl := some "https://example.org/Dataset001_hand.zip" } ∧
    weightsExist root0 fsPresent = .error .typeError ∧
    weightsExist root0 fsEmpty = .error .typeError := by
  decide

end HandCBCT
